import Mathlib

/-!
Verification of the request-handling pipeline of the Improglish landing-page
backend (src/main.py): payload parsing, phone validation, message
construction, outbound delivery and its failure handling.

The handler is embedded as a pure function from its inputs (configuration,
parsed payload, caller secret header, and the outcome of the single outbound
call, supplied as an oracle) to its observable outputs (HTTP-level response,
the list of outbound calls performed, and the log lines printed).
-/

namespace Improglish

/-- The parsed request body (class ContactPayload, src/main.py lines 37-48).
Field constraints are enforced by `parseContactPayload` below. -/
structure ContactPayload where
  name : String
  phone : String
  age : Int
  language : String
  pack_name : String
  pack_price_per_hour : String
  pack_option_selected : String
  availability_summary : String
  message : String
  discord_message : String
deriving Repr, DecidableEq

/-- A raw JSON object as received on the wire, before pydantic validation:
each declared field is present (`some`) or absent (`none`). -/
structure RawPayload where
  name : Option String
  phone : Option String
  age : Option Int
  language : Option String
  pack_name : Option String
  pack_price_per_hour : Option String
  pack_option_selected : Option String
  availability_summary : Option String
  message : Option String
  discord_message : Option String
deriving Repr, DecidableEq

/-- Pydantic structural validation of ContactPayload (src/main.py lines 37-48):
`name` required with 1-120 chars, `phone` required, `age` required in 10..99,
`language` required with 2-5 chars, the four pack/availability strings
required, `message` optional with default value N/A and at most 2000 chars,
`discord_message` required. Failure is the transport-level 422. -/
def parseContactPayload (r : RawPayload) : Except Unit ContactPayload :=
  match r.name, r.phone, r.age, r.language, r.pack_name, r.pack_price_per_hour,
      r.pack_option_selected, r.availability_summary, r.discord_message with
  | some nm, some ph, some ag, some lang, some pn, some pp, some po, some av, some dm =>
    let msg := r.message.getD "N/A"
    if 1 ≤ nm.length ∧ nm.length ≤ 120 ∧ 10 ≤ ag ∧ ag ≤ 99 ∧
        2 ≤ lang.length ∧ lang.length ≤ 5 ∧ msg.length ≤ 2000 then
      Except.ok ⟨nm, ph, ag, lang, pn, pp, po, av, msg, dm⟩
    else
      Except.error ()
  | _, _, _, _, _, _, _, _, _ => Except.error ()

/-- Python `s.replace(" ", "")` (src/main.py line 64): removes every
occurrence of the space character U+0020. -/
def stripSpaces (s : String) : String :=
  String.mk (s.data.filter (fun c => c ≠ ' '))

/-- The code-point ranges of the Unicode general category Nd (decimal
digit), Unicode database version 14.0.0. On str patterns without the
re.ASCII flag, Python `\d` matches exactly the characters of this
category, so PHONE_RE also accepts phones written with non-ASCII decimal
digits such as the Arabic-Indic or fullwidth digits. -/
def ndRanges : List (Nat × Nat) :=
  [(0x30, 0x39), (0x660, 0x669), (0x6F0, 0x6F9), (0x7C0, 0x7C9), (0x966, 0x96F),
   (0x9E6, 0x9EF), (0xA66, 0xA6F), (0xAE6, 0xAEF), (0xB66, 0xB6F), (0xBE6, 0xBEF),
   (0xC66, 0xC6F), (0xCE6, 0xCEF), (0xD66, 0xD6F), (0xDE6, 0xDEF), (0xE50, 0xE59),
   (0xED0, 0xED9), (0xF20, 0xF29), (0x1040, 0x1049), (0x1090, 0x1099), (0x17E0, 0x17E9),
   (0x1810, 0x1819), (0x1946, 0x194F), (0x19D0, 0x19D9), (0x1A80, 0x1A89), (0x1A90, 0x1A99),
   (0x1B50, 0x1B59), (0x1BB0, 0x1BB9), (0x1C40, 0x1C49), (0x1C50, 0x1C59), (0xA620, 0xA629),
   (0xA8D0, 0xA8D9), (0xA900, 0xA909), (0xA9D0, 0xA9D9), (0xA9F0, 0xA9F9), (0xAA50, 0xAA59),
   (0xABF0, 0xABF9), (0xFF10, 0xFF19), (0x104A0, 0x104A9), (0x10D30, 0x10D39), (0x11066, 0x1106F),
   (0x110F0, 0x110F9), (0x11136, 0x1113F), (0x111D0, 0x111D9), (0x112F0, 0x112F9), (0x11450, 0x11459),
   (0x114D0, 0x114D9), (0x11650, 0x11659), (0x116C0, 0x116C9), (0x11730, 0x11739), (0x118E0, 0x118E9),
   (0x11950, 0x11959), (0x11C50, 0x11C59), (0x11D50, 0x11D59), (0x11DA0, 0x11DA9), (0x16A60, 0x16A69),
   (0x16AC0, 0x16AC9), (0x16B50, 0x16B59), (0x1D7CE, 0x1D7FF), (0x1E140, 0x1E149), (0x1E2F0, 0x1E2F9),
   (0x1E950, 0x1E959), (0x1FBF0, 0x1FBF9)]

/-- Whether a character is a Unicode decimal digit (category Nd): the
character class matched by Python `\d` in PHONE_RE. -/
def isNdDigit (c : Char) : Bool :=
  ndRanges.any (fun r => decide (r.1 ≤ c.toNat) && decide (c.toNat ≤ r.2))

/-- The body of the pattern `\+\d{7,15}` anchored on both sides: a single
leading plus sign followed by 7 to 15 decimal digits and nothing else.
Digits are the Unicode decimal digits (category Nd), the class Python `\d`
matches without the re.ASCII flag. -/
def phoneCore (s : String) : Bool :=
  match s.data with
  | c :: ds =>
      c == '+' && ds.all isNdDigit && decide (7 ≤ ds.length) && decide (ds.length ≤ 15)
  | [] => false

/-- Python `PHONE_RE.match(s)` as a Boolean, for
`PHONE_RE = re.compile(r"^\+\d\x7b7,15\x7d$")` (src/main.py line 34).
In Python the `$` anchor matches at the end of the string AND just before a
newline at the end of the string, so the regex also accepts the exact
pattern followed by one trailing newline character. -/
def phoneMatch (s : String) : Bool :=
  phoneCore s ||
    (match s.data.getLast? with
     | some c => c == '\n' && phoneCore (String.mk s.data.dropLast)
     | none => false)

/-- The phone pattern exactly as the spec words it: one leading plus sign,
then 7 to 15 decimal digits (Unicode category Nd, the class Python `\d`
matches), and nothing else. Used to compare the implementation against the
specification. -/
def specPhonePattern (s : String) : Prop :=
  ∃ ds : List Char, s.data = '+' :: ds ∧ (∀ c ∈ ds, isNdDigit c) ∧
    7 ≤ ds.length ∧ ds.length ≤ 15

instance (s : String) : Decidable (specPhonePattern s) := by
  unfold specPhonePattern
  cases s.data with
  | nil => exact Decidable.isFalse (by simp)
  | cons c cs =>
    by_cases hc : c = '+'
    · subst hc
      refine decidable_of_iff ((∀ x ∈ cs, isNdDigit x) ∧ 7 ≤ cs.length ∧ cs.length ≤ 15) ?_
      constructor
      · rintro ⟨h1, h2, h3⟩
        exact ⟨cs, rfl, h1, h2, h3⟩
      · rintro ⟨ds, hds, h1, h2, h3⟩
        cases hds
        exact ⟨h1, h2, h3⟩
    · exact Decidable.isFalse (by rintro ⟨ds, hds, -⟩; exact hc (by injection hds))

/-- The configuration read from the environment at startup
(src/main.py lines 10-11). `none` models an unset variable.
`enforceAuth` is modelled from the spec: the deployment toggle of the
optional shared-secret check (spec section 4.1 step 1); the corresponding
check in src/main.py lines 58-59 is commented out, so the shipped code runs
with `enforceAuth = false`. -/
structure Config where
  webhookUrl : Option String
  formSecret : Option String
  enforceAuth : Bool
deriving Repr, DecidableEq

/-- Python truthiness of an optional string: truthy iff set and non-empty. -/
def pyTruthy : Option String → Bool
  | none => false
  | some s => s ≠ ""

/-- The outcome of the single outbound POST, supplied by the environment:
it succeeds, the downstream answers a non-success status (raise_for_status
raises httpx.HTTPStatusError carrying the response text), or the request
itself fails (httpx.RequestError, which includes timeouts). -/
inductive DeliveryOutcome where
  | success : DeliveryOutcome
  | httpStatusError (responseText : String) : DeliveryOutcome
  | requestError (errText : String) : DeliveryOutcome
deriving Repr, DecidableEq

/-- One outbound HTTP POST as performed by the handler
(src/main.py lines 83-89): target URL, the two fields of the JSON body,
the explicit Content-Type header, and the client timeout in seconds. -/
structure OutboundCall where
  url : String
  bodyUsername : String
  bodyContent : String
  contentType : String
  timeoutSeconds : Nat
deriving Repr, DecidableEq

/-- An HTTPException raised by the handler: status code and detail. -/
structure HandlerError where
  statusCode : Nat
  detail : String
deriving Repr, DecidableEq

/-- The success acknowledgment object (src/main.py line 101). -/
structure SuccessResponse where
  ok : Bool
  message : String
deriving Repr, DecidableEq

/-- Everything observable about one handler run: the response to the
caller, the outbound calls performed, and the log lines printed. -/
structure HandlerResult where
  response : Except HandlerError SuccessResponse
  calls : List OutboundCall
  logs : List String
deriving Repr

/-- The fixed sender display name (src/main.py line 78). -/
def senderName : String := "Improglish Server"

/-- The log lines printed for each delivery outcome (src/main.py lines 93
and 98): a success prints nothing, the two caught exception classes each
print one line. -/
def logsFor : DeliveryOutcome → List String
  | DeliveryOutcome.success => []
  | DeliveryOutcome.httpStatusError t => ["Discord relay failed: " ++ t]
  | DeliveryOutcome.requestError t => ["HTTPX Request Error: " ++ t]

/-- The condition of the shared-secret check (src/main.py line 58,
commented out): FORM_SECRET is truthy and the X-Secret header value
differs from it under exact string comparison (an absent header, `none`,
differs from every configured secret). -/
def authRejects (cfg : Config) (x_secret : Option String) : Prop :=
  cfg.enforceAuth = true ∧ pyTruthy cfg.formSecret = true ∧ x_secret ≠ cfg.formSecret

instance (cfg : Config) (x_secret : Option String) :
    Decidable (authRejects cfg x_secret) := by
  unfold authRejects
  infer_instance

/-- The detail message of the invalid-phone error (src/main.py line 67). -/
def invalidPhoneDetail : String :=
  "Invalid phone format. Must be international (e.g., +212...)."

/-- The endpoint handler relay_to_discord (src/main.py lines 52-101).

Control flow of the source, in order:
1. the optional shared-secret check (lines 58-59, commented out in the
   shipped code, hence guarded by `cfg.enforceAuth`): if FORM_SECRET is
   truthy and the X-Secret header differs from it, raise 401 Unauthorized;
2. phone validation (lines 64-67): strip spaces, match against PHONE_RE,
   on failure raise 422 with `invalidPhoneDetail`;
3. message construction (lines 77-80): the JSON body is always
   the fixed username together with body.discord_message verbatim;
4. delivery (lines 82-99): if DISCORD_WEBHOOK_URL is truthy, one POST with
   that body, Content-Type application/json, timeout 10; a non-success
   status or a request error is caught and logged, never re-raised;
5. response (line 101): the constant acknowledgment object. -/
def relay_to_discord (cfg : Config) (body : ContactPayload)
    (x_secret : Option String) (outcome : DeliveryOutcome) : HandlerResult :=
  if authRejects cfg x_secret then
    ⟨Except.error ⟨401, "Unauthorized"⟩, [], []⟩
  else if ¬ phoneMatch (stripSpaces body.phone) then
    ⟨Except.error ⟨422, invalidPhoneDetail⟩, [], []⟩
  else if pyTruthy cfg.webhookUrl then
    ⟨Except.ok ⟨true, "Request processed."⟩,
     [⟨cfg.webhookUrl.getD "", senderName, body.discord_message,
       "application/json", 10⟩],
     logsFor outcome⟩
  else
    ⟨Except.ok ⟨true, "Request processed."⟩, [], []⟩

/-- The amended form of the phone pattern actually accepted by
`PHONE_RE.match`: the spec pattern itself, or the spec pattern followed by
exactly one trailing newline (the Python `$` anchor also matches just
before a newline that ends the string). -/
def specPhoneNewline (s : String) : Prop :=
  specPhonePattern s ∨
    (s.data.getLast? = some '\n' ∧ specPhonePattern (String.mk s.data.dropLast))

instance (s : String) : Decidable (specPhoneNewline s) := by
  unfold specPhoneNewline
  infer_instance

/-- The configuration of the running example: webhook set, secret set,
enforcement off as in the shipped code. -/
def webhookConfig : Config :=
  ⟨some "https://discord.example/webhook", some "s3cret", false⟩

/-- The payload of spec scenario 1, extended with the fields the pydantic
model actually requires. -/
def samplePayload : ContactPayload :=
  ⟨"Alice", "+1 234 567 8901", 25, "EN", "Standard", "10", "4h", "weekends",
   "hi", "Full pre-rendered text"⟩

/-- Spec scenario 2: a phone with no leading plus sign. -/
def invalidPhonePayload : ContactPayload :=
  ⟨"Alice", "1234567", 25, "EN", "Standard", "10", "4h", "weekends",
   "hi", "msg"⟩

/-- A phone that is the exact pattern followed by one trailing newline. -/
def newlinePhonePayload : ContactPayload :=
  ⟨"Alice", "+1234567\n", 25, "EN", "Standard", "10", "4h", "weekends",
   "hi", "msg"⟩

/-- Spec scenario 4: the webhook URL environment variable is unset. -/
def noWebhookConfig : Config := ⟨none, some "s3cret", false⟩

/-- Spec scenario 5: a deployment with shared-secret enforcement enabled. -/
def enforcingConfig : Config :=
  ⟨some "https://discord.example/webhook", some "s3cret", true⟩

/-- The raw form of spec scenario 1: discrete fields only, with no
pre-formatted discord_message field. -/
def rawScenarioOne : RawPayload :=
  ⟨some "Alice", some "+1 234 567 8901", some 25, some "EN", some "Standard",
   some "10", some "4", some "weekends", some "hi", none⟩

/-- A payload differing from `samplePayload` in every discrete field but
carrying the same pre-formatted discord_message. -/
def altPayload : ContactPayload :=
  ⟨"Bob", "+212 612 345 678", 30, "FR", "Pro", "12", "8h", "evenings",
   "salut", "Full pre-rendered text"⟩

/-! Basic lemmas relating the executable validators to their
specification-side predicates, and the four behaviors of the handler. -/

theorem phoneCore_eq_true_iff (s : String) : phoneCore s = true ↔ specPhonePattern s := by
  unfold phoneCore specPhonePattern
  cases hs : s.data with
  | nil => simp
  | cons c cs =>
    simp only [Bool.and_eq_true, beq_iff_eq, List.all_eq_true, decide_eq_true_eq,
      List.cons.injEq]
    constructor
    · rintro ⟨⟨⟨rfl, hd⟩, h7⟩, h15⟩
      exact ⟨cs, ⟨rfl, rfl⟩, hd, h7, h15⟩
    · rintro ⟨ds, ⟨rfl, rfl⟩, hd, h7, h15⟩
      exact ⟨⟨⟨rfl, hd⟩, h7⟩, h15⟩

theorem phoneMatch_eq_true_iff (s : String) : phoneMatch s = true ↔ specPhoneNewline s := by
  unfold phoneMatch specPhoneNewline
  cases hl : s.data.getLast? with
  | none =>
    simp [phoneCore_eq_true_iff]
  | some c =>
    simp [phoneCore_eq_true_iff, Option.some.injEq]

/-- The digit class of the model is the full Unicode Nd category, not only
ASCII: a phone written with seven Arabic-Indic digits is accepted, exactly
as PHONE_RE.match accepts it. -/
theorem phoneMatch_arabic_indic : phoneMatch "+١٢٣٤٥٦٧" = true := by decide

theorem not_authRejects_of_disabled (cfg : Config) (x : Option String)
    (hauth : cfg.enforceAuth = false) : ¬ authRejects cfg x := by
  unfold authRejects
  simp [hauth]

theorem relay_unauthorized (cfg : Config) (body : ContactPayload)
    (x : Option String) (o : DeliveryOutcome) (hA : authRejects cfg x) :
    relay_to_discord cfg body x o = ⟨Except.error ⟨401, "Unauthorized"⟩, [], []⟩ := by
  unfold relay_to_discord
  rw [if_pos hA]

theorem relay_invalid_phone (cfg : Config) (body : ContactPayload)
    (x : Option String) (o : DeliveryOutcome) (hA : ¬ authRejects cfg x)
    (hp : phoneMatch (stripSpaces body.phone) = false) :
    relay_to_discord cfg body x o = ⟨Except.error ⟨422, invalidPhoneDetail⟩, [], []⟩ := by
  unfold relay_to_discord
  rw [if_neg hA, if_pos (by simp [hp])]

theorem relay_delivers (cfg : Config) (body : ContactPayload)
    (x : Option String) (o : DeliveryOutcome) (hA : ¬ authRejects cfg x)
    (hp : phoneMatch (stripSpaces body.phone) = true)
    (hw : pyTruthy cfg.webhookUrl = true) :
    relay_to_discord cfg body x o =
      ⟨Except.ok ⟨true, "Request processed."⟩,
       [⟨cfg.webhookUrl.getD "", senderName, body.discord_message,
         "application/json", 10⟩],
       logsFor o⟩ := by
  unfold relay_to_discord
  rw [if_neg hA, if_neg (by simp [hp]), if_pos (by simp [hw])]

theorem relay_skips_delivery (cfg : Config) (body : ContactPayload)
    (x : Option String) (o : DeliveryOutcome) (hA : ¬ authRejects cfg x)
    (hp : phoneMatch (stripSpaces body.phone) = true)
    (hw : pyTruthy cfg.webhookUrl = false) :
    relay_to_discord cfg body x o =
      ⟨Except.ok ⟨true, "Request processed."⟩, [], []⟩ := by
  unfold relay_to_discord
  rw [if_neg hA, if_neg (by simp [hp]), if_neg (by simp [hw])]

/-! The claims. -/

/-- C1, counterexample: the claim says the handler accepts the phone if and
only if the space-stripped value is a plus sign followed by 7 to 15 decimal
digits and nothing else. The phone "+1234567" followed by a newline is
accepted by the handler (Python `$` matches just before a trailing
newline), yet it does not match the claimed pattern. -/
theorem C1_counterexample :
    (relay_to_discord webhookConfig newlinePhonePayload none
        DeliveryOutcome.success).response
      = Except.ok ⟨true, "Request processed."⟩ ∧
    ¬ specPhonePattern (stripSpaces newlinePhonePayload.phone) := by
  constructor
  · rw [relay_delivers webhookConfig newlinePhonePayload none DeliveryOutcome.success
      (not_authRejects_of_disabled _ _ rfl) (by decide) (by decide)]
  · decide

/-- C1, amended: with authentication enforcement disabled (as in the shipped
code), the handler accepts the payload if and only if the space-stripped
phone is a plus sign followed by 7 to 15 decimal digits (any Unicode
category-Nd digit, the class Python `\d` matches), optionally followed by
exactly one trailing newline; on mismatch it fails with a 422 error whose
detail names the expected international format. -/
theorem C1_phone_validation (cfg : Config) (body : ContactPayload)
    (x : Option String) (o : DeliveryOutcome) (hauth : cfg.enforceAuth = false) :
    ((relay_to_discord cfg body x o).response = Except.ok ⟨true, "Request processed."⟩
        ↔ specPhoneNewline (stripSpaces body.phone)) ∧
    (¬ specPhoneNewline (stripSpaces body.phone) →
      (relay_to_discord cfg body x o).response
        = Except.error ⟨422, invalidPhoneDetail⟩) := by
  have hA := not_authRejects_of_disabled cfg x hauth
  by_cases hp : phoneMatch (stripSpaces body.phone) = true
  · have hs := (phoneMatch_eq_true_iff _).mp hp
    refine ⟨⟨fun _ => hs, fun _ => ?_⟩, fun hns => absurd hs hns⟩
    by_cases hw : pyTruthy cfg.webhookUrl = true
    · rw [relay_delivers cfg body x o hA hp hw]
    · rw [relay_skips_delivery cfg body x o hA hp (by simpa using hw)]
  · have hp' : phoneMatch (stripSpaces body.phone) = false := by simpa using hp
    have hns : ¬ specPhoneNewline (stripSpaces body.phone) := by
      rw [← phoneMatch_eq_true_iff, hp']
      simp
    rw [relay_invalid_phone cfg body x o hA hp']
    exact ⟨⟨fun h => absurd h (by simp), fun h => absurd h hns⟩, fun _ => rfl⟩

/-- C1, witness: the amended theorem applied to spec scenario 2, a phone
with no leading plus sign, under the running-example configuration. -/
theorem C1_witness :
    ((relay_to_discord webhookConfig invalidPhonePayload none
          DeliveryOutcome.success).response = Except.ok ⟨true, "Request processed."⟩
        ↔ specPhoneNewline (stripSpaces invalidPhonePayload.phone)) ∧
    (¬ specPhoneNewline (stripSpaces invalidPhonePayload.phone) →
      (relay_to_discord webhookConfig invalidPhonePayload none
          DeliveryOutcome.success).response
        = Except.error ⟨422, invalidPhoneDetail⟩) :=
  C1_phone_validation webhookConfig invalidPhonePayload none DeliveryOutcome.success rfl

/-- C2: for every payload, with enforcement disabled, a valid phone and a
truthy webhook URL, the single outbound call carries exactly the payload
field discord_message as its content, wrapped with the fixed sender display
name; nothing is added or substituted. -/
theorem C2_verbatim_content (cfg : Config) (body : ContactPayload)
    (x : Option String) (o : DeliveryOutcome)
    (hauth : cfg.enforceAuth = false)
    (hp : phoneMatch (stripSpaces body.phone) = true)
    (hw : pyTruthy cfg.webhookUrl = true) :
    (relay_to_discord cfg body x o).calls =
      [⟨cfg.webhookUrl.getD "", senderName, body.discord_message,
        "application/json", 10⟩] := by
  rw [relay_delivers cfg body x o (not_authRejects_of_disabled cfg x hauth) hp hw]

/-- C2, witness: the verbatim-content theorem at the running example. -/
theorem C2_witness :
    (relay_to_discord webhookConfig samplePayload none
        DeliveryOutcome.success).calls =
      [⟨webhookConfig.webhookUrl.getD "", senderName, samplePayload.discord_message,
        "application/json", 10⟩] :=
  C2_verbatim_content webhookConfig samplePayload none DeliveryOutcome.success
    rfl (by decide) (by decide)

/-- C3: for every payload, with enforcement disabled, a valid phone and a
truthy webhook URL, the handler performs exactly one outbound HTTP POST, to
the configured webhook URL, with JSON body fields username (the fixed
display name) and content, the Content-Type header set to application/json
and a timeout of 10 seconds; never a second call. -/
theorem C3_single_post (cfg : Config) (body : ContactPayload)
    (x : Option String) (o : DeliveryOutcome)
    (hauth : cfg.enforceAuth = false)
    (hp : phoneMatch (stripSpaces body.phone) = true)
    (url : String) (hu : cfg.webhookUrl = some url) (hne : url ≠ "") :
    (relay_to_discord cfg body x o).calls.length = 1 ∧
    ∀ call ∈ (relay_to_discord cfg body x o).calls,
      call.url = url ∧ call.bodyUsername = senderName ∧
      call.bodyContent = body.discord_message ∧
      call.contentType = "application/json" ∧ call.timeoutSeconds = 10 := by
  have hw : pyTruthy cfg.webhookUrl = true := by simp [hu, pyTruthy, hne]
  rw [relay_delivers cfg body x o (not_authRejects_of_disabled cfg x hauth) hp hw]
  refine ⟨rfl, ?_⟩
  intro call hc
  rw [List.mem_singleton] at hc
  subst hc
  exact ⟨by simp [hu], rfl, rfl, rfl, rfl⟩

/-- C3, witness: the single-POST theorem at the running example. -/
theorem C3_witness :
    (relay_to_discord webhookConfig samplePayload none
        DeliveryOutcome.success).calls.length = 1 ∧
    ∀ call ∈ (relay_to_discord webhookConfig samplePayload none
        DeliveryOutcome.success).calls,
      call.url = "https://discord.example/webhook" ∧ call.bodyUsername = senderName ∧
      call.bodyContent = samplePayload.discord_message ∧
      call.contentType = "application/json" ∧ call.timeoutSeconds = 10 :=
  C3_single_post webhookConfig samplePayload none DeliveryOutcome.success
    rfl (by decide) "https://discord.example/webhook" rfl (by decide)

/-- C4: for every valid payload (enforcement disabled, phone valid), the
outcome of the outbound call (success, downstream non-success status,
network failure or timeout) never changes the response: the handler returns
the success acknowledgment in every case. -/
theorem C4_outcome_never_changes_response (cfg : Config) (body : ContactPayload)
    (x : Option String) (hauth : cfg.enforceAuth = false)
    (hp : phoneMatch (stripSpaces body.phone) = true) :
    ∀ o : DeliveryOutcome,
      (relay_to_discord cfg body x o).response
        = Except.ok ⟨true, "Request processed."⟩ := by
  intro o
  have hA := not_authRejects_of_disabled cfg x hauth
  by_cases hw : pyTruthy cfg.webhookUrl = true
  · rw [relay_delivers cfg body x o hA hp hw]
  · rw [relay_skips_delivery cfg body x o hA hp (by simpa using hw)]

/-- C4, witness: the response is the success acknowledgment both under a
downstream non-success status and under a request error. -/
theorem C4_witness :
    (relay_to_discord webhookConfig samplePayload none
        (DeliveryOutcome.httpStatusError "429 rate limited")).response
      = Except.ok ⟨true, "Request processed."⟩ ∧
    (relay_to_discord webhookConfig samplePayload none
        (DeliveryOutcome.requestError "connect timeout")).response
      = Except.ok ⟨true, "Request processed."⟩ :=
  ⟨C4_outcome_never_changes_response webhookConfig samplePayload none rfl (by decide) _,
   C4_outcome_never_changes_response webhookConfig samplePayload none rfl (by decide) _⟩

/-- C5: for every valid payload, when the webhook URL configuration is
unset the handler makes zero outbound calls and still returns the success
acknowledgment (degraded mode). -/
theorem C5_unset_webhook_degraded (cfg : Config) (body : ContactPayload)
    (x : Option String) (o : DeliveryOutcome)
    (hauth : cfg.enforceAuth = false)
    (hp : phoneMatch (stripSpaces body.phone) = true)
    (hw : cfg.webhookUrl = none) :
    (relay_to_discord cfg body x o).calls = [] ∧
    (relay_to_discord cfg body x o).response
      = Except.ok ⟨true, "Request processed."⟩ := by
  rw [relay_skips_delivery cfg body x o (not_authRejects_of_disabled cfg x hauth) hp
    (by simp [hw, pyTruthy])]
  exact ⟨rfl, rfl⟩

/-- C5, witness: the degraded-mode theorem at a configuration with the
webhook URL unset. -/
theorem C5_witness :
    (relay_to_discord noWebhookConfig samplePayload none
        DeliveryOutcome.success).calls = [] ∧
    (relay_to_discord noWebhookConfig samplePayload none
        DeliveryOutcome.success).response
      = Except.ok ⟨true, "Request processed."⟩ :=
  C5_unset_webhook_degraded noWebhookConfig samplePayload none
    DeliveryOutcome.success rfl (by decide) rfl

/-- C6: for every payload whose phone fails validation (enforcement
disabled), the handler raises the 422 error before any outbound delivery is
attempted: the entire observable result is the error with zero outbound
calls and zero log lines. -/
theorem C6_invalid_phone_atomic (cfg : Config) (body : ContactPayload)
    (x : Option String) (o : DeliveryOutcome)
    (hauth : cfg.enforceAuth = false)
    (hp : phoneMatch (stripSpaces body.phone) = false) :
    relay_to_discord cfg body x o =
      ⟨Except.error ⟨422, invalidPhoneDetail⟩, [], []⟩ :=
  relay_invalid_phone cfg body x o (not_authRejects_of_disabled cfg x hauth) hp

/-- C6, witness: the atomicity theorem at spec scenario 2, a phone with no
leading plus sign, with the webhook configured. -/
theorem C6_witness :
    relay_to_discord webhookConfig invalidPhonePayload none
        DeliveryOutcome.success =
      ⟨Except.error ⟨422, invalidPhoneDetail⟩, [], []⟩ :=
  C6_invalid_phone_atomic webhookConfig invalidPhonePayload none
    DeliveryOutcome.success rfl (by decide)

/-- C7: when a non-empty shared secret is configured and enforcement is
enabled, every request whose X-Secret value differs from the secret under
exact string comparison (including an omitted header) fails with a 401
Unauthorized error before phone validation and delivery: the result is the
401 error with zero outbound calls, for every body including ones with an
invalid phone. -/
theorem C7_auth_rejects_mismatch (cfg : Config) (body : ContactPayload)
    (x : Option String) (o : DeliveryOutcome) (s : String)
    (henf : cfg.enforceAuth = true) (hs : cfg.formSecret = some s)
    (hne : s ≠ "") (hx : x ≠ some s) :
    relay_to_discord cfg body x o =
      ⟨Except.error ⟨401, "Unauthorized"⟩, [], []⟩ :=
  relay_unauthorized cfg body x o
    ⟨henf, by simp [hs, pyTruthy, hne], by rw [hs]; exact hx⟩

/-- C7, witness: the 401 theorem at an enforcing configuration with an
omitted header and a body whose phone is invalid, showing the check fires
before validation. -/
theorem C7_witness :
    relay_to_discord enforcingConfig invalidPhonePayload none
        DeliveryOutcome.success =
      ⟨Except.error ⟨401, "Unauthorized"⟩, [], []⟩ :=
  C7_auth_rejects_mismatch enforcingConfig invalidPhonePayload none
    DeliveryOutcome.success "s3cret" rfl rfl (by decide) (by decide)

/-- C8, counterexample: the claim (and spec scenario 1) says a valid
payload carrying only the discrete fields, with no pre-formatted
discord_message field, is processed with a synthesized notification; the
pydantic model rejects that payload outright, since discord_message is a
required field. -/
theorem C8_counterexample :
    parseContactPayload rawScenarioOne = Except.error () := rfl

/-- C8, amended: the pre-formatted discord_message field is required, so a
payload lacking it never reaches the handler (structural validation fails
with a 422), and the handler never synthesizes content from the discrete
fields: the content of every outbound call is the verbatim
discord_message. -/
theorem C8_no_synthesis :
    (∀ (nm ph : Option String) (ag : Option Int)
        (lang pn pp po av m : Option String),
        parseContactPayload ⟨nm, ph, ag, lang, pn, pp, po, av, m, none⟩
          = Except.error ()) ∧
    (∀ (cfg : Config) (body : ContactPayload) (x : Option String)
        (o : DeliveryOutcome),
        ∀ call ∈ (relay_to_discord cfg body x o).calls,
          call.bodyContent = body.discord_message) := by
  constructor
  · intro nm ph ag lang pn pp po av m
    cases nm <;> cases ph <;> cases ag <;> cases lang <;> cases pn <;>
      cases pp <;> cases po <;> cases av <;> rfl
  · intro cfg body x o call hc
    by_cases hA : authRejects cfg x
    · rw [relay_unauthorized cfg body x o hA] at hc
      simp at hc
    · by_cases hp : phoneMatch (stripSpaces body.phone) = true
      · by_cases hw : pyTruthy cfg.webhookUrl = true
        · rw [relay_delivers cfg body x o hA hp hw] at hc
          simp at hc
          subst hc
          rfl
        · rw [relay_skips_delivery cfg body x o hA hp (by simpa using hw)] at hc
          simp at hc
      · rw [relay_invalid_phone cfg body x o hA (by simpa using hp)] at hc
        simp at hc

/-- C8, witness: a concrete raw payload without discord_message fails
structural validation, and the call of the running example carries the
verbatim discord_message. -/
theorem C8_witness :
    parseContactPayload ⟨some "Bob", some "+212612345678", some 30, some "FR",
        some "Pro", some "12", some "8", some "evenings", none, none⟩
      = Except.error () ∧
    OutboundCall.bodyContent ⟨webhookConfig.webhookUrl.getD "", senderName,
        samplePayload.discord_message, "application/json", 10⟩
      = samplePayload.discord_message :=
  ⟨C8_no_synthesis.1 _ _ _ _ _ _ _ _ _,
   C8_no_synthesis.2 webhookConfig samplePayload none DeliveryOutcome.success
     ⟨webhookConfig.webhookUrl.getD "", senderName,
      samplePayload.discord_message, "application/json", 10⟩
     (by
       rw [relay_delivers webhookConfig samplePayload none DeliveryOutcome.success
         (not_authRejects_of_disabled _ _ rfl) (by decide) (by decide)]
       exact List.mem_singleton.mpr rfl)⟩

/-- C9: the outbound calls depend only on the discord_message field (and
the configuration): two valid payloads with equal discord_message values
produce identical outbound calls, whatever their name, phone, age,
language, package, availability or message fields, secret headers and
delivery outcomes. -/
theorem C9_body_depends_only_on_message (cfg : Config)
    (b1 b2 : ContactPayload) (x1 x2 : Option String)
    (o1 o2 : DeliveryOutcome) (hauth : cfg.enforceAuth = false)
    (h1 : phoneMatch (stripSpaces b1.phone) = true)
    (h2 : phoneMatch (stripSpaces b2.phone) = true)
    (hdm : b1.discord_message = b2.discord_message) :
    (relay_to_discord cfg b1 x1 o1).calls
      = (relay_to_discord cfg b2 x2 o2).calls := by
  have hA1 := not_authRejects_of_disabled cfg x1 hauth
  have hA2 := not_authRejects_of_disabled cfg x2 hauth
  by_cases hw : pyTruthy cfg.webhookUrl = true
  · rw [relay_delivers cfg b1 x1 o1 hA1 h1 hw,
      relay_delivers cfg b2 x2 o2 hA2 h2 hw, hdm]
  · rw [relay_skips_delivery cfg b1 x1 o1 hA1 h1 (by simpa using hw),
      relay_skips_delivery cfg b2 x2 o2 hA2 h2 (by simpa using hw)]

/-- C9, witness: two payloads differing in every discrete field but with
equal discord_message, under different headers and delivery outcomes,
produce identical outbound calls. -/
theorem C9_witness :
    (relay_to_discord webhookConfig samplePayload none
        DeliveryOutcome.success).calls
      = (relay_to_discord webhookConfig altPayload (some "other")
        (DeliveryOutcome.requestError "connect timeout")).calls :=
  C9_body_depends_only_on_message webhookConfig samplePayload altPayload
    none (some "other") DeliveryOutcome.success
    (DeliveryOutcome.requestError "connect timeout")
    rfl (by decide) (by decide) rfl

/-- C10: whenever the handler returns a success response, that response is
the constant acknowledgment object with ok set to true and the fixed
message, independent of the payload, the configuration and the delivery
outcome. -/
theorem C10_constant_acknowledgment (cfg : Config) (body : ContactPayload)
    (x : Option String) (o : DeliveryOutcome) (r : SuccessResponse)
    (h : (relay_to_discord cfg body x o).response = Except.ok r) :
    r = ⟨true, "Request processed."⟩ := by
  by_cases hA : authRejects cfg x
  · rw [relay_unauthorized cfg body x o hA] at h
    exact Except.noConfusion h
  · by_cases hp : phoneMatch (stripSpaces body.phone) = true
    · by_cases hw : pyTruthy cfg.webhookUrl = true
      · rw [relay_delivers cfg body x o hA hp hw] at h
        exact (Except.ok.inj h).symm
      · rw [relay_skips_delivery cfg body x o hA hp (by simpa using hw)] at h
        exact (Except.ok.inj h).symm
    · rw [relay_invalid_phone cfg body x o hA (by simpa using hp)] at h
      exact Except.noConfusion h

/-- C10, witness: the constant-acknowledgment theorem at the running
example. -/
theorem C10_witness :
    (relay_to_discord webhookConfig samplePayload none
        DeliveryOutcome.success).response
      = Except.ok ⟨true, "Request processed."⟩ ∧
    (⟨true, "Request processed."⟩ : SuccessResponse)
      = ⟨true, "Request processed."⟩ :=
  ⟨by rfl,
   C10_constant_acknowledgment webhookConfig samplePayload none
     DeliveryOutcome.success ⟨true, "Request processed."⟩ (by rfl)⟩

end Improglish
